import Mathlib

/-!
Verification of the lazyjj Commander layer (src/src/commander/jj.rs) and the
DetailsPanel widget (src/src/ui/details_panel.rs), shallowly embedded in Lean.
Argument vectors are lists of strings built exactly as the source builds them;
fallible calls are `Except` values; the u16 fields of the details panel are
naturals with explicit saturation; the f32 drag coordinates are modelled as
rationals (the properties proved about dragging hold for every real target
because `scroll_to` clamps every input).
-/

namespace LazyJJ

/-- Opaque textual commit identifier, always obtained from tool output. -/
structure CommitId where
  id : String
  deriving DecidableEq, Repr

/-- Mirrors CommitId::as_str. -/
def CommitId.as_str (c : CommitId) : String := c.id

/-- The Bookmark entity: name, optional remote, presence flag, timestamp. -/
structure Bookmark where
  name : String
  remote : Option String
  present : Bool
  timestamp : Int
  deriving DecidableEq, Repr

/-- Modelled from the spec: the tagged CommandError type lives in the
commander module root, which is not under src; spec section 3 gives the three
kinds: non-zero exit carrying the captured standard-error text, failure to
start the subprocess, and failure to parse expected output. -/
inductive CommandError where
  | NonZeroExit (stderr : String) (exitCode : Int)
  | LaunchFailure (msg : String)
  | ParseFailure (msg : String)
  deriving DecidableEq, Repr

/-- Raw outcome of one subprocess run: a launch error, or an exit code with
the captured standard output and standard error. -/
inductive ProcessOutcome where
  | launchError (msg : String)
  | exited (code : Int) (stdout : String) (stderr : String)
  deriving DecidableEq, Repr

/-- Strip one trailing newline from captured standard output. -/
def trimTrailingNewline (s : String) : String :=
  if s.endsWith "\n" then s.dropRight 1 else s

/-- Modelled from the spec: execute_jj_command of the commander module root
(not under src). Spec sections 4.1 and 6: success with standard output
trimmed of a trailing newline when the exit status is zero; a CommandError
carrying the captured standard error verbatim and the exit status when
non-zero; a launch failure when the process cannot start. -/
def executeJJCommand : ProcessOutcome → Except CommandError String
  | .launchError m => .error (.LaunchFailure m)
  | .exited code out err =>
      if code = 0 then .ok (trimTrailingNewline out)
      else .error (.NonZeroExit err code)

/-! Argument vectors, built exactly as the methods of jj.rs build them. -/

/-- Arguments built by run_new. -/
def run_new_args (revision : String) : List String := ["new", revision]

/-- Arguments built by run_edit: starts from ["edit", revision] and pushes
the override flag when ignore_immutable is set. -/
def run_edit_args (revision : String) (ignore_immutable : Bool) : List String :=
  ["edit", revision] ++ (if ignore_immutable then ["--ignore-immutable"] else [])

/-- Arguments built by run_abandon. -/
def run_abandon_args (commit_id : CommitId) : List String :=
  ["abandon", commit_id.as_str]

/-- Arguments built by run_describe. -/
def run_describe_args (revision message : String) : List String :=
  ["describe", revision, "-m", message]

/-- Arguments built by run_squash: starts from ["squash", "-u", "--into",
revision] and pushes the override flag when ignore_immutable is set. -/
def run_squash_args (revision : String) (ignore_immutable : Bool) : List String :=
  ["squash", "-u", "--into", revision]
    ++ (if ignore_immutable then ["--ignore-immutable"] else [])

/-- Arguments built by create_bookmark. -/
def create_bookmark_args (name : String) : List String :=
  ["bookmark", "create", name]

/-- Arguments built by create_bookmark_commit. -/
def create_bookmark_commit_args (name : String) (commit_id : CommitId) : List String :=
  ["bookmark", "create", name, "-r", commit_id.as_str]

/-- Arguments built by set_bookmark_commit. The trailing flag is
unconditional in the source. -/
def set_bookmark_commit_args (name : String) (commit_id : CommitId) : List String :=
  ["bookmark", "set", name, "-r", commit_id.as_str, "--allow-backwards"]

/-- Arguments built by rename_bookmark. -/
def rename_bookmark_args (old new : String) : List String :=
  ["bookmark", "rename", old, new]

/-- Arguments built by delete_bookmark. -/
def delete_bookmark_args (name : String) : List String :=
  ["bookmark", "delete", name]

/-- Arguments built by forget_bookmark. -/
def forget_bookmark_args (name : String) : List String :=
  ["bookmark", "forget", name]

/-- Arguments built by git_push: ["git", "push"], then "--allow-new" when
allow_new, then either "--all" (all_bookmarks) or "-r" commit. -/
def git_push_args (all_bookmarks allow_new : Bool) (commit_id : CommitId) : List String :=
  ["git", "push"]
    ++ (if allow_new then ["--allow-new"] else [])
    ++ (if all_bookmarks then ["--all"] else ["-r", commit_id.as_str])

/-- Arguments built by git_fetch. -/
def git_fetch_args (all_remotes : Bool) : List String :=
  ["git", "fetch"] ++ (if all_remotes then ["--all-remotes"] else [])

end LazyJJ

namespace LazyJJ

/-- C1: for every commit identifier and every pair of booleans, git_push's
argument vector starts with the push subcommand tokens; with all_bookmarks it
contains "--all" and no revision selector; without it, exactly one
("-r", commit) pair and no "--all"; and "--allow-new" appears iff allow_new,
independently of all_bookmarks. -/
theorem git_push_args_spec (all_bookmarks allow_new : Bool) (c : CommitId)
    (hc : c.as_str ∉ (["--all", "-r", "--allow-new"] : List String)) :
    (git_push_args all_bookmarks allow_new c).take 2 = ["git", "push"]
    ∧ (all_bookmarks = true →
        "--all" ∈ git_push_args all_bookmarks allow_new c
        ∧ "-r" ∉ git_push_args all_bookmarks allow_new c)
    ∧ (all_bookmarks = false →
        (git_push_args all_bookmarks allow_new c).count "-r" = 1
        ∧ "--all" ∉ git_push_args all_bookmarks allow_new c
        ∧ (git_push_args all_bookmarks allow_new c).drop
            ((git_push_args all_bookmarks allow_new c).length - 2) = ["-r", c.as_str])
    ∧ ("--allow-new" ∈ git_push_args all_bookmarks allow_new c ↔ allow_new = true) := by
  simp only [List.mem_cons, List.mem_singleton, not_or] at hc
  obtain ⟨h1, h2, h3, -⟩ := hc
  refine ⟨?_, ?_, ?_, ?_⟩
  · cases all_bookmarks <;> cases allow_new <;> rfl
  · intro hab; subst hab
    cases allow_new <;>
      exact ⟨by simp [git_push_args], by simp [git_push_args]⟩
  · intro hab; subst hab
    cases allow_new <;>
      refine ⟨?_, ?_, rfl⟩ <;>
      simp [git_push_args, List.count_cons, beq_iff_eq, Ne.symm h1, Ne.symm h2]
  · cases all_bookmarks <;> cases allow_new <;>
      simp [git_push_args, Ne.symm h3]

/-- C1 witness at a concrete commit identifier. -/
theorem git_push_args_spec_witness :
    (CommitId.mk "abc123").as_str ∉ (["--all", "-r", "--allow-new"] : List String)
    ∧ ("--allow-new" ∈ git_push_args false true (CommitId.mk "abc123") ↔ true = true) :=
  ⟨by decide, (git_push_args_spec false true (CommitId.mk "abc123") (by decide)).2.2.2⟩

/-- C2: the argument vector of set_bookmark_commit always contains the
"--allow-backwards" flag, alongside the fixed subcommand tokens, the name,
and the revision-selector pair, for every input. -/
theorem set_bookmark_commit_args_spec (name : String) (c : CommitId) :
    "--allow-backwards" ∈ set_bookmark_commit_args name c
    ∧ set_bookmark_commit_args name c
        = ["bookmark", "set"] ++ [name] ++ ["-r", c.as_str] ++ ["--allow-backwards"] := by
  simp [set_bookmark_commit_args]

/-- C5: run_edit builds exactly the fixed subcommand followed by the revision
when ignore_immutable is false, and appends "--ignore-immutable" as the last
element when it is true; run_squash follows the same rule over its fixed
subcommand, source-selection flag and target flag/value. -/
theorem edit_squash_args_spec (revision : String) :
    run_edit_args revision false = ["edit", revision]
    ∧ run_edit_args revision true = ["edit", revision] ++ ["--ignore-immutable"]
    ∧ (run_edit_args revision true).getLast? = some "--ignore-immutable"
    ∧ run_squash_args revision false = ["squash", "-u", "--into", revision]
    ∧ run_squash_args revision true
        = ["squash", "-u", "--into", revision] ++ ["--ignore-immutable"]
    ∧ (run_squash_args revision true).getLast? = some "--ignore-immutable" := by
  simp [run_edit_args, run_squash_args]

/-- Modelled from the spec: the wrapped tool's description store. The query
side (get_commit_description) lives outside src; per the spec, describing
revision R with message M and then querying the description of R returns
exactly M. The store maps each revision to its description. -/
def toolDescribe (descriptions : String → String) (revision message : String) :
    String → String :=
  fun r => if r = revision then message else descriptions r

/-- C6: run_describe builds exactly the fixed subcommand, the revision, the
message flag and the message, byte-for-byte unmodified, so describing and
then querying the same revision returns exactly the message. -/
theorem run_describe_args_spec (descriptions : String → String) (revision message : String) :
    run_describe_args revision message = ["describe", revision, "-m", message]
    ∧ (run_describe_args revision message)[3]? = some message
    ∧ toolDescribe descriptions revision message revision = message := by
  simp [run_describe_args, toolDescribe]

/-- Result of create_bookmark: propagate the execution error, else return a
client-synthesized Bookmark (the source re-runs no query). -/
def create_bookmark (exec : Except CommandError Unit) (name : String) (now : Int) :
    Except CommandError Bookmark :=
  match exec with
  | .error e => .error e
  | .ok _ => .ok { name := name, remote := none, present := true, timestamp := now }

/-- Result of create_bookmark_commit: same synthesized Bookmark; the commit
identifier only enters the argument vector, not the returned value. -/
def create_bookmark_commit (exec : Except CommandError Unit) (name : String)
    (commit_id : CommitId) (now : Int) : Except CommandError Bookmark :=
  match exec with
  | .error e => .error e
  | .ok _ => .ok { name := name, remote := none, present := true, timestamp := now }

/-- C3: when the underlying execution succeeds, both bookmark-creation
methods return a Bookmark with the given name, no remote and present = true,
synthesized client-side; when it fails, the CommandError is returned and no
Bookmark is constructed. -/
theorem create_bookmark_spec (name : String) (commit_id : CommitId) (now : Int) :
    create_bookmark (.ok ()) name now
      = .ok { name := name, remote := none, present := true, timestamp := now }
    ∧ (∀ e, create_bookmark (.error e) name now = .error e)
    ∧ create_bookmark_commit (.ok ()) name commit_id now
      = .ok { name := name, remote := none, present := true, timestamp := now }
    ∧ (∀ e, create_bookmark_commit (.error e) name commit_id now = .error e) :=
  ⟨rfl, fun _ => rfl, rfl, fun _ => rfl⟩

/-- The error type of the top-level entry points: either a bare CommandError
or one wrapped with a human-readable context message, as anyhow's context
chains do, preserving the underlying cause. -/
inductive AppError where
  | cmd (e : CommandError)
  | context (msg : String) (cause : AppError)
  deriving DecidableEq, Repr

/-- The root cause at the bottom of a context chain. -/
def AppError.rootCause : AppError → CommandError
  | .cmd e => e
  | .context _ cause => cause.rootCause

/-- Mirrors anyhow's .context(msg) applied to a command result: success is
unchanged, failure is wrapped with the message, keeping the cause. -/
def with_context (msg : String) : Except CommandError Unit → Except AppError Unit
  | .ok u => .ok u
  | .error e => .error (.context msg (.cmd e))

/-- Result plumbing of run_new: wraps its failure with context. -/
def run_new_result (exec : Except CommandError Unit) : Except AppError Unit :=
  with_context "Failed executing jj new" exec

/-- Result plumbing of run_edit. -/
def run_edit_result (exec : Except CommandError Unit) : Except AppError Unit :=
  with_context "Failed executing jj edit" exec

/-- Result plumbing of run_abandon. -/
def run_abandon_result (exec : Except CommandError Unit) : Except AppError Unit :=
  with_context "Failed executing jj abandon" exec

/-- Result plumbing of run_describe. -/
def run_describe_result (exec : Except CommandError Unit) : Except AppError Unit :=
  with_context "Failed executing jj describe" exec

/-- Result plumbing of run_squash. -/
def run_squash_result (exec : Except CommandError Unit) : Except AppError Unit :=
  with_context "Failed executing jj squash" exec

/-- Result plumbing of set_bookmark_commit: the execution outcome is
returned as is, CommandError unwrapped. -/
def set_bookmark_commit_result (exec : Except CommandError Unit) :
    Except CommandError Unit := exec

/-- Result plumbing of rename_bookmark. -/
def rename_bookmark_result (exec : Except CommandError Unit) :
    Except CommandError Unit := exec

/-- Result plumbing of delete_bookmark. -/
def delete_bookmark_result (exec : Except CommandError Unit) :
    Except CommandError Unit := exec

/-- Result plumbing of forget_bookmark. -/
def forget_bookmark_result (exec : Except CommandError Unit) :
    Except CommandError Unit := exec

/-- Result plumbing of track_bookmark. -/
def track_bookmark_result (exec : Except CommandError Unit) :
    Except CommandError Unit := exec

/-- Result plumbing of untrack_bookmark. -/
def untrack_bookmark_result (exec : Except CommandError Unit) :
    Except CommandError Unit := exec

/-- Result plumbing of git_push: the textual output or the bare error. -/
def git_push_result (exec : Except CommandError String) :
    Except CommandError String := exec

/-- Result plumbing of git_fetch. -/
def git_fetch_result (exec : Except CommandError String) :
    Except CommandError String := exec

/-- C4: every bookmark mutation method and push/fetch surfaces the tagged
CommandError unwrapped, while run_new, run_edit, run_abandon, run_describe
and run_squash wrap their failure with a context message naming the executed
intent, preserving the underlying cause. -/
theorem error_policy_spec (e : CommandError) (name : String) (now : Int) (s : String) :
    run_new_result (.error e) = .error (.context "Failed executing jj new" (.cmd e))
    ∧ run_edit_result (.error e) = .error (.context "Failed executing jj edit" (.cmd e))
    ∧ run_abandon_result (.error e) = .error (.context "Failed executing jj abandon" (.cmd e))
    ∧ run_describe_result (.error e) = .error (.context "Failed executing jj describe" (.cmd e))
    ∧ run_squash_result (.error e) = .error (.context "Failed executing jj squash" (.cmd e))
    ∧ (AppError.context "Failed executing jj new" (.cmd e)).rootCause = e
    ∧ create_bookmark (.error e) name now = .error e
    ∧ set_bookmark_commit_result (.error e) = .error e
    ∧ rename_bookmark_result (.error e) = .error e
    ∧ delete_bookmark_result (.error e) = .error e
    ∧ forget_bookmark_result (.error e) = .error e
    ∧ track_bookmark_result (.error e) = .error e
    ∧ untrack_bookmark_result (.error e) = .error e
    ∧ git_push_result (.error e) = .error e
    ∧ git_fetch_result (.error e) = .error e
    ∧ git_push_result (.ok s) = .ok s :=
  ⟨rfl, rfl, rfl, rfl, rfl, rfl, rfl, rfl, rfl, rfl, rfl, rfl, rfl, rfl, rfl, rfl⟩

/-- C7: a non-zero exit surfaces a CommandError carrying the captured
standard-error text exactly, and this outcome is a different constructor
from launch failure and from parse failure. -/
theorem nonzero_exit_spec (code : Int) (out err : String) (hcode : code ≠ 0) :
    executeJJCommand (.exited code out err) = .error (.NonZeroExit err code)
    ∧ (∀ m, CommandError.NonZeroExit err code ≠ CommandError.LaunchFailure m)
    ∧ (∀ m, CommandError.NonZeroExit err code ≠ CommandError.ParseFailure m) := by
  refine ⟨?_, fun m h => ?_, fun m h => ?_⟩
  · simp [executeJJCommand, hcode]
  · cases h
  · cases h

/-- C7 witness: exit code 1 with a two-line standard error. -/
theorem nonzero_exit_spec_witness :
    (1 : Int) ≠ 0
    ∧ executeJJCommand (.exited 1 "" "line one\nline two\n")
        = .error (.NonZeroExit "line one\nline two\n" 1) :=
  ⟨by decide, (nonzero_exit_spec 1 "" "line one\nline two\n" (by decide)).1⟩

/-! The DetailsPanel of src/src/ui/details_panel.rs. The u16 fields are
naturals with explicit saturation at 65535; the f32 drag coordinates are
rationals, with the float-to-u16 cast modelled as truncation clamped to the
u16 range, as the Rust cast behaves on every non-NaN value. -/

/-- u16::saturating_add_signed: add a signed value, clamped to [0, 65535]. -/
def saturating_add_signed (x : Nat) (d : Int) : Nat :=
  (min (max ((x : Int) + d) 0) 65535).toNat

/-- The `as i16` cast of a signed integer: wrap into [-32768, 32767]. -/
def as_i16 (z : Int) : Int := (z + 32768) % 65536 - 32768

/-- The `as u16` cast of a non-NaN float, here a rational: truncate toward
zero and clamp to [0, 65535]. -/
def as_u16_of_rat (q : Rat) : Nat := min (max (Rat.floor q) 0).toNat 65535

/-- The DetailsPanel state: scroll offset, last rendered height, rendered
line count, drag origin, and the wrap toggle. -/
structure DetailsPanel where
  scroll : Nat
  height : Nat
  lines : Nat
  drag_origin : Rat
  wrap : Bool
  deriving DecidableEq, Repr

/-- DetailsPanel::new. -/
def DetailsPanel.new : DetailsPanel :=
  { scroll := 0, height := 0, lines := 0, drag_origin := 0, wrap := true }

/-- DetailsPanel::scroll_to: clamp the target to lines saturating-minus one. -/
def DetailsPanel.scroll_to (p : DetailsPanel) (line_no : Nat) : DetailsPanel :=
  { p with scroll := min line_no (p.lines - 1) }

/-- DetailsPanel::scroll (named scroll_by here because the field already
carries the name): saturating add of the delta cast to i16, then scroll_to. -/
def DetailsPanel.scroll_by (p : DetailsPanel) (delta : Int) : DetailsPanel :=
  p.scroll_to (saturating_add_signed p.scroll (as_i16 delta))

/-- DetailsPanel::drag_base: record where the drag started. -/
def DetailsPanel.drag_base (p : DetailsPanel) (rel_line_no : Rat) : DetailsPanel :=
  { p with drag_origin := rel_line_no * (p.lines : Rat) - (p.scroll : Rat) }

/-- DetailsPanel::drag_move_to: clamp the drag target into [0, lines], cast
to u16, then scroll_to. -/
def DetailsPanel.drag_move_to (p : DetailsPanel) (rel_line_no : Rat) : DetailsPanel :=
  p.scroll_to (as_u16_of_rat
    (max 0 (min (rel_line_no * (p.lines : Rat) - p.drag_origin) (p.lines : Rat))))

/-- The DetailsPanelEvent enum. -/
inductive DetailsPanelEvent where
  | ScrollDown
  | ScrollUp
  | ScrollDownHalfPage
  | ScrollUpHalfPage
  | ScrollDownPage
  | ScrollUpPage
  | DragBegin (rel_line : Rat)
  | DragUpdate (rel_line : Rat)
  | DragEnd (rel_line : Rat)
  | ToggleWrap

/-- DetailsPanel::handle_event. The half-page and page deltas are the
nonnegative height, so their isize negation never saturates. -/
def DetailsPanel.handle_event (p : DetailsPanel) (e : DetailsPanelEvent) : DetailsPanel :=
  match e with
  | .ScrollDown => p.scroll_by 1
  | .ScrollUp => p.scroll_by (-1)
  | .ScrollDownHalfPage => p.scroll_by ((p.height / 2 : Nat) : Int)
  | .ScrollUpHalfPage => p.scroll_by (-((p.height / 2 : Nat) : Int))
  | .ScrollDownPage => p.scroll_by ((p.height : Nat) : Int)
  | .ScrollUpPage => p.scroll_by (-((p.height : Nat) : Int))
  | .DragBegin rel_line => p.drag_base rel_line
  | .DragUpdate rel_line => p.drag_move_to rel_line
  | .DragEnd rel_line => p.drag_move_to rel_line
  | .ToggleWrap => { p with wrap := !p.wrap }

/-- The scroll operations named by the scrolling invariant: scroll_to,
scroll_by, and every scroll variant of handle_event, drag moves included. -/
inductive ScrollOp where
  | opScrollTo (line_no : Nat)
  | opScroll (delta : Int)
  | opScrollDown
  | opScrollUp
  | opScrollDownHalfPage
  | opScrollUpHalfPage
  | opScrollDownPage
  | opScrollUpPage
  | opDragUpdate (rel_line : Rat)
  | opDragEnd (rel_line : Rat)

/-- Apply one scroll operation through the panel methods. -/
def applyScrollOp (p : DetailsPanel) : ScrollOp → DetailsPanel
  | .opScrollTo n => p.scroll_to n
  | .opScroll d => p.scroll_by d
  | .opScrollDown => p.handle_event .ScrollDown
  | .opScrollUp => p.handle_event .ScrollUp
  | .opScrollDownHalfPage => p.handle_event .ScrollDownHalfPage
  | .opScrollUpHalfPage => p.handle_event .ScrollUpHalfPage
  | .opScrollDownPage => p.handle_event .ScrollDownPage
  | .opScrollUpPage => p.handle_event .ScrollUpPage
  | .opDragUpdate r => p.handle_event (.DragUpdate r)
  | .opDragEnd r => p.handle_event (.DragEnd r)

/-- Apply a sequence of scroll operations left to right. -/
def applyScrollOps (p : DetailsPanel) : List ScrollOp → DetailsPanel
  | [] => p
  | o :: os => applyScrollOps (applyScrollOp p o) os

/-- The scroll position invariant: at most lines minus one when there are
lines, and zero when there are none. -/
def scrollInv (p : DetailsPanel) : Prop :=
  (0 < p.lines → p.scroll ≤ p.lines - 1) ∧ (p.lines = 0 → p.scroll = 0)

instance (p : DetailsPanel) : Decidable (scrollInv p) := by
  unfold scrollInv; infer_instance

theorem scrollInv_scroll_to (p : DetailsPanel) (n : Nat) : scrollInv (p.scroll_to n) := by
  constructor
  · intro _
    exact min_le_right ..
  · intro h
    have hl : p.lines = 0 := h
    simp [DetailsPanel.scroll_to, hl]

theorem scrollInv_applyScrollOp (p : DetailsPanel) (o : ScrollOp) :
    scrollInv (applyScrollOp p o) := by
  cases o <;> exact scrollInv_scroll_to ..

theorem scrollInv_applyScrollOps (os : List ScrollOp) (p : DetailsPanel) (o : ScrollOp) :
    scrollInv (applyScrollOps p (o :: os)) := by
  induction os generalizing p o with
  | nil => exact scrollInv_applyScrollOp p o
  | cons o2 os2 ih => exact ih (applyScrollOp p o) o2

/-- C8: from any panel state, any nonempty sequence of scroll operations
(scroll_to, scroll, and every scroll variant of handle_event, drag moves
included) leaves scroll at most lines minus one when lines is positive and
at zero when lines is zero; negative amounts saturate at zero; a fresh panel
has scroll = 0 (and satisfies the bound as well, having zero lines). -/
theorem details_panel_scroll_invariant :
    DetailsPanel.new.scroll = 0
    ∧ scrollInv DetailsPanel.new
    ∧ (∀ (p : DetailsPanel) (o : ScrollOp) (os : List ScrollOp),
        scrollInv (applyScrollOps p (o :: os))) :=
  ⟨rfl, by decide, fun p o os => scrollInv_applyScrollOps os p o⟩

/-- C8 witness: one concrete scroll operation from a concrete state. -/
theorem details_panel_scroll_invariant_witness :
    scrollInv (applyScrollOps
      { scroll := 9, height := 4, lines := 3, drag_origin := 0, wrap := true }
      [ScrollOp.opScroll (-7), ScrollOp.opScrollTo 5]) :=
  details_panel_scroll_invariant.2.2
    { scroll := 9, height := 4, lines := 3, drag_origin := 0, wrap := true }
    (ScrollOp.opScroll (-7)) [ScrollOp.opScrollTo 5]

/-- C9: handling ToggleWrap changes only the wrap field, and handling it
twice returns the panel to exactly its original state. -/
theorem toggle_wrap_spec (p : DetailsPanel) :
    (p.handle_event .ToggleWrap).scroll = p.scroll
    ∧ (p.handle_event .ToggleWrap).height = p.height
    ∧ (p.handle_event .ToggleWrap).lines = p.lines
    ∧ (p.handle_event .ToggleWrap).drag_origin = p.drag_origin
    ∧ (p.handle_event .ToggleWrap).wrap = !p.wrap
    ∧ (p.handle_event .ToggleWrap).handle_event .ToggleWrap = p := by
  refine ⟨rfl, rfl, rfl, rfl, rfl, ?_⟩
  cases p
  simp [DetailsPanel.handle_event]

/-! render_file_context of src/src/ui/details_panel.rs. A span is its list
of characters, a line its list of spans, a text its list of lines. The
Unicode letter test is a parameter; the rendered header is modelled as the
selected line, none meaning nothing is rendered. -/

/-- A span's content, as its characters. -/
abbrev Span := List Char

/-- A ratatui Line, as its spans. -/
abbrev Line := List Span

/-- A ratatui Text, as its lines. -/
abbrev Text := List Line

/-- first_char_of_line: scan the spans in order, skipping empty ones, and
return the first character found. -/
def first_char_of_line : Line → Option Char
  | [] => none
  | [] :: rest => first_char_of_line rest
  | (c :: _) :: _ => some c

/-- The filter predicate of render_file_context: the line's first character
exists and is a letter. -/
def line_starts_with_letter (alphabetic : Char → Bool) (line : Line) : Bool :=
  match first_char_of_line line with
  | some c => alphabetic c
  | none => false

/-- last_header_line: the last line, among the lines before and at the
scroll offset, that starts with a letter. -/
def last_header_line (alphabetic : Char → Bool) (text : Text) (scroll : Nat) :
    Option Line :=
  ((text.take (scroll + 1)).filter (line_starts_with_letter alphabetic)).getLast?

/-- render_file_context: nothing when the area has no height, otherwise the
last header line, if any. -/
def render_file_context (alphabetic : Char → Bool) (area_height : Nat)
    (text : Text) (scroll : Nat) : Option Line :=
  if area_height < 1 then none
  else last_header_line alphabetic text scroll

theorem head?_filter {α : Type} (p : α → Bool) (l : List α) :
    (l.filter p).head? = l.find? p := by
  induction l with
  | nil => rfl
  | cons a l ih => by_cases h : p a <;> simp [List.filter_cons, List.find?_cons, h, ih]

theorem getLast?_filter_eq {α : Type} (p : α → Bool) (l : List α) :
    (l.filter p).getLast? = l.reverse.find? p := by
  rw [List.getLast?_eq_head?_reverse, ← List.filter_reverse, head?_filter]

theorem getLast?_filter_eq_none_iff {α : Type} (p : α → Bool) (l : List α) :
    (l.filter p).getLast? = none ↔ ∀ y ∈ l, p y = false := by
  rw [getLast?_filter_eq, List.find?_eq_none]
  simp [List.mem_reverse]

theorem getLast?_filter_eq_some_iff {α : Type} (p : α → Bool) (l : List α) (x : α) :
    (l.filter p).getLast? = some x ↔
      p x = true ∧ ∃ l1 l2, l = l1 ++ x :: l2 ∧ ∀ y ∈ l2, p y = false := by
  rw [getLast?_filter_eq, List.find?_eq_some]
  constructor
  · rintro ⟨hp, as, bs, hrev, hall⟩
    refine ⟨hp, bs.reverse, as.reverse, ?_, ?_⟩
    · have h2 := congrArg List.reverse hrev
      simpa [List.reverse_append] using h2
    · intro y hy
      have h3 := hall y (by simpa using hy)
      simpa using h3
  · rintro ⟨hp, l1, l2, hl, hall⟩
    refine ⟨hp, l2.reverse, l1.reverse, ?_, ?_⟩
    · rw [hl]
      simp [List.reverse_append]
    · intro y hy
      have h3 := hall y (by simpa using hy)
      simp [h3]

theorem first_char_of_line_flatten (line : Line) :
    first_char_of_line line = line.flatten.head? := by
  induction line with
  | nil => rfl
  | cons span rest ih =>
    cases span with
    | nil => simpa [first_char_of_line] using ih
    | cons c cs => simp [first_char_of_line]

theorem line_starts_with_letter_iff (alphabetic : Char → Bool) (line : Line) :
    line_starts_with_letter alphabetic line = true ↔
      ∃ c, line.flatten.head? = some c ∧ alphabetic c = true := by
  unfold line_starts_with_letter
  rw [← first_char_of_line_flatten]
  cases h : first_char_of_line line <;> simp [h]

/-- C10: render_file_context selects as the header exactly the last line of
index at most the scroll offset whose first character, found by scanning the
spans in order past empty spans, is a letter; with no such line, or with an
area height below one, it renders nothing. -/
theorem render_file_context_spec (alphabetic : Char → Bool) (area_height : Nat)
    (text : Text) (scroll : Nat) :
    (∀ line, first_char_of_line line = line.flatten.head?)
    ∧ (area_height = 0 → render_file_context alphabetic area_height text scroll = none)
    ∧ (0 < area_height →
        (render_file_context alphabetic area_height text scroll = none ↔
          ∀ line ∈ text.take (scroll + 1),
            line_starts_with_letter alphabetic line = false))
    ∧ (0 < area_height → ∀ l,
        (render_file_context alphabetic area_height text scroll = some l ↔
          line_starts_with_letter alphabetic l = true
          ∧ ∃ l1 l2, text.take (scroll + 1) = l1 ++ l :: l2
              ∧ ∀ y ∈ l2, line_starts_with_letter alphabetic y = false))
    ∧ (∀ l, line_starts_with_letter alphabetic l = true ↔
        ∃ c, l.flatten.head? = some c ∧ alphabetic c = true) := by
  have hpos : 0 < area_height → ¬area_height < 1 := by omega
  refine ⟨first_char_of_line_flatten, ?_, ?_, ?_, line_starts_with_letter_iff alphabetic⟩
  · intro h
    simp [render_file_context, h]
  · intro h
    rw [render_file_context, if_neg (hpos h), last_header_line]
    exact getLast?_filter_eq_none_iff ..
  · intro h l
    rw [render_file_context, if_neg (hpos h), last_header_line]
    exact getLast?_filter_eq_some_iff ..

/-- C10 witness: a one-line text whose line starts with a blank, area height
one, scroll zero. -/
theorem render_file_context_spec_witness :
    0 < 1
    ∧ (render_file_context (fun c => c.isAlpha) 1 [[[' ', 'x']]] 0 = none ↔
        ∀ line ∈ ([[[' ', 'x']]] : Text).take (0 + 1),
          line_starts_with_letter (fun c => c.isAlpha) line = false) :=
  ⟨by decide, (render_file_context_spec (fun c => c.isAlpha) 1 [[[' ', 'x']]] 0).2.2.1
    (by decide)⟩

end LazyJJ
